import Mathlib

/-!
Verification of the shader-program build-and-link pipeline of
`opengl-triangle` against its specification.

The repository has two near-duplicate copies of the pipeline:

* `src/main.cpp` : `compileShader` / `createShaderProgram` (desktop GL);
* `src/main_vxworks.cpp` : `loadShader` / `createProgram` (OpenGL ES).

The pipeline's only effects are calls into the graphics API and text
emitted to standard error.  We embed it shallowly: the graphics driver's
responses (compile status, link status, info logs) are modelled by an
oracle structure `Driver`, handle allocation by a fresh-handle counter
threaded through the functions, and every API call and stderr emission is
recorded in a trace of `Event`s.  Each pipeline function returns
`(result, nextHandle, trace)`.
-/

/-- Shader stage kind, the `GLenum` argument (`GL_VERTEX_SHADER` /
`GL_FRAGMENT_SHADER`) of `glCreateShader` in both sources. -/
inductive ShaderType where
  | vertex
  | fragment
deriving DecidableEq, Repr

/-- Oracle for the graphics driver's responses.  `compileOk t s` is what
`glGetShaderiv(shader, GL_COMPILE_STATUS, ...)` reports for a shader of
stage `t` whose source is `s`; `compileLog t s` is the driver's full info
log for that shader (`glGetShaderInfoLog` retrieves a prefix of it bounded
by the caller's buffer).  `linkOk v f` and `linkLog v f` likewise model
`GL_LINK_STATUS` and the program info log for a program whose two attached
shaders were compiled from sources `v` and `f`. -/
structure Driver where
  compileOk : ShaderType → String → Bool
  compileLog : ShaderType → String → String
  linkOk : String → String → Bool
  linkLog : String → String → String

/-- One observable action of the pipeline: a graphics-API call that
creates, mutates or destroys an object, or a diagnostic emitted to
standard error.  `compileError t msg` records the stderr emission made
inside the compile helper for stage `t` (the attribution is the call site;
the emitted text `msg` is exactly what the code writes).  Status and
log queries (`glGetShaderiv`, `glGetProgramiv`, `glGet*InfoLog`) are
modelled by the `Driver` oracle and therefore not traced. -/
inductive Event where
  | createShaderObject (t : ShaderType) (h : Nat)
  | setSource (h : Nat) (src : String)
  | compile (h : Nat)
  | destroyShader (h : Nat)
  | createProgramObject (h : Nat)
  | attachShader (p s : Nat)
  | link (p : Nat)
  | destroyProgram (h : Nat)
  | compileError (t : ShaderType) (msg : String)
  | linkError (msg : String)
deriving DecidableEq, Repr

/-- `GL_INFO_LOG_LENGTH` for a driver log: the length of the log text
plus one for the terminating NUL, or `0` when there is no log. -/
def infoLogLength (s : String) : Nat :=
  if s.length = 0 then 0 else s.length + 1

/-- `compileShader` of `src/main.cpp` (lines 40–55).  Creates a shader
object (fresh handle `n`), attaches the source, compiles.  On compile
failure it retrieves at most 511 characters of the info log into a
512-byte stack buffer, writes the tagged message to stderr, deletes the
shader and returns the sentinel `0`; on success it returns the handle. -/
def compileShader (d : Driver) (t : ShaderType) (source : String) (n : Nat) :
    Nat × Nat × List Event :=
  let shader := n
  let ev : List Event :=
    [Event.createShaderObject t shader, Event.setSource shader source, Event.compile shader]
  if d.compileOk t source then
    (shader, n + 1, ev)
  else
    let infoLog := (d.compileLog t source).take 511
    (0, n + 1,
      ev ++ [Event.compileError t ("ERROR::SHADER::COMPILATION_FAILED\n" ++ infoLog),
             Event.destroyShader shader])

/-- `createShaderProgram` of `src/main.cpp` (lines 58–85).  Compiles both
stages, returns `0` if either resulting handle is zero, otherwise creates
a program, attaches both shaders, links; on link failure it emits the
tagged (truncated) program log, deletes the program and sets the result
to `0`; in either link outcome it then deletes both shader objects. -/
def createShaderProgram (d : Driver) (vtxSrc fragSrc : String) (n : Nat) :
    Nat × Nat × List Event :=
  let r1 := compileShader d ShaderType.vertex vtxSrc n
  let vertexShader := r1.1
  let r2 := compileShader d ShaderType.fragment fragSrc r1.2.1
  let fragmentShader := r2.1
  let ev := r1.2.2 ++ r2.2.2
  if vertexShader = 0 ∨ fragmentShader = 0 then
    (0, r2.2.1, ev)
  else
    let program := r2.2.1
    let evLink : List Event :=
      [Event.createProgramObject program, Event.attachShader program vertexShader,
       Event.attachShader program fragmentShader, Event.link program]
    if d.linkOk vtxSrc fragSrc then
      (program, r2.2.1 + 1,
        ev ++ evLink ++ [Event.destroyShader vertexShader, Event.destroyShader fragmentShader])
    else
      let infoLog := (d.linkLog vtxSrc fragSrc).take 511
      (0, r2.2.1 + 1,
        ev ++ evLink ++
          [Event.linkError ("ERROR::PROGRAM::LINKING_FAILED\n" ++ infoLog),
           Event.destroyProgram program,
           Event.destroyShader vertexShader, Event.destroyShader fragmentShader])

/-- `loadShader` of `src/main_vxworks.cpp` (lines 28–48).  Like
`compileShader`, but on failure it first queries `GL_INFO_LOG_LENGTH`;
only when that length exceeds 1 does it allocate a buffer of exactly that
size, retrieve the full log and emit it (differently tagged); it then
deletes the shader and returns `0`. -/
def loadShader (d : Driver) (t : ShaderType) (source : String) (n : Nat) :
    Nat × Nat × List Event :=
  let shader := n
  let ev : List Event :=
    [Event.createShaderObject t shader, Event.setSource shader source, Event.compile shader]
  if d.compileOk t source then
    (shader, n + 1, ev)
  else
    let infoLen := infoLogLength (d.compileLog t source)
    let evLog : List Event :=
      if 1 < infoLen then
        [Event.compileError t ("Error compiling shader:\n" ++ d.compileLog t source)]
      else []
    (0, n + 1, ev ++ evLog ++ [Event.destroyShader shader])

/-- `createProgram` of `src/main_vxworks.cpp` (lines 50–82).  Compiles
both stages, returns `0` if either handle is zero, otherwise creates a
program, attaches both shaders and links.  On link failure it emits the
full program log when its queried length exceeds 1, deletes the program
and returns `0` immediately — without deleting the two shader objects;
only on link success does it delete both shaders and return the program. -/
def createProgram (d : Driver) (vtxSrc fragSrc : String) (n : Nat) :
    Nat × Nat × List Event :=
  let r1 := loadShader d ShaderType.vertex vtxSrc n
  let vtxShader := r1.1
  let r2 := loadShader d ShaderType.fragment fragSrc r1.2.1
  let fragShader := r2.1
  let ev := r1.2.2 ++ r2.2.2
  if vtxShader = 0 ∨ fragShader = 0 then
    (0, r2.2.1, ev)
  else
    let program := r2.2.1
    let evLink : List Event :=
      [Event.createProgramObject program, Event.attachShader program vtxShader,
       Event.attachShader program fragShader, Event.link program]
    if d.linkOk vtxSrc fragSrc then
      (program, r2.2.1 + 1,
        ev ++ evLink ++ [Event.destroyShader vtxShader, Event.destroyShader fragShader])
    else
      let infoLen := infoLogLength (d.linkLog vtxSrc fragSrc)
      let evLog : List Event :=
        if 1 < infoLen then
          [Event.linkError ("Error linking program:\n" ++ d.linkLog vtxSrc fragSrc)]
        else []
      (0, r2.2.1 + 1, ev ++ evLink ++ evLog ++ [Event.destroyProgram program])

/-! Trace observations used by the claims. -/

/-- Whether an event is a `createShaderObject` call. -/
def isCreateShader : Event → Bool
  | Event.createShaderObject _ _ => true
  | _ => false

/-- Whether an event is a `destroyShader` call. -/
def isDestroyShader : Event → Bool
  | Event.destroyShader _ => true
  | _ => false

/-- Whether an event creates, attaches to, or links a program object. -/
def isProgramCall : Event → Bool
  | Event.createProgramObject _ => true
  | Event.attachShader _ _ => true
  | Event.link _ => true
  | _ => false

/-- Whether an event is a stderr diagnostic emission. -/
def isDiagnostic : Event → Bool
  | Event.compileError _ _ => true
  | Event.linkError _ => true
  | _ => false

/-- Whether an event is a compile diagnostic for stage `t`. -/
def isCompileErrorFor (t : ShaderType) : Event → Bool
  | Event.compileError u _ => u = t
  | _ => false

/-- Number of `createShaderObject` calls in a trace. -/
def countCreateShader (tr : List Event) : Nat :=
  (tr.filter isCreateShader).length

/-- Number of `destroyShader` calls in a trace. -/
def countDestroyShader (tr : List Event) : Nat :=
  (tr.filter isDestroyShader).length

/-- Number of compile diagnostics attributed to stage `t` in a trace. -/
def countCompileErrorFor (t : ShaderType) (tr : List Event) : Nat :=
  (tr.filter (isCompileErrorFor t)).length

/-- Events of a trace that are neither destroy calls nor diagnostics:
the create / setSource / compile / attach / link calls. -/
def coreCalls (tr : List Event) : List Event :=
  tr.filter (fun e => !(isDestroyShader e || isDiagnostic e ||
    (match e with | Event.destroyProgram _ => true | _ => false)))

/-! Characterization lemmas: the value of each pipeline function on each
combination of driver responses, proved by unfolding the definitions. -/

theorem infoLogLength_gt_one (s : String) : 1 < infoLogLength s ↔ s.length ≠ 0 := by
  unfold infoLogLength
  split <;> omega

theorem compileShader_ok (d : Driver) (t : ShaderType) (s : String) (n : Nat)
    (h : d.compileOk t s = true) :
    compileShader d t s n =
      (n, n + 1,
       [Event.createShaderObject t n, Event.setSource n s, Event.compile n]) := by
  simp [compileShader, h]

theorem compileShader_fail (d : Driver) (t : ShaderType) (s : String) (n : Nat)
    (h : d.compileOk t s = false) :
    compileShader d t s n =
      (0, n + 1,
       [Event.createShaderObject t n, Event.setSource n s, Event.compile n,
        Event.compileError t
          ("ERROR::SHADER::COMPILATION_FAILED\n" ++ (d.compileLog t s).take 511),
        Event.destroyShader n]) := by
  simp [compileShader, h]

theorem compileShader_next (d : Driver) (t : ShaderType) (s : String) (n : Nat) :
    (compileShader d t s n).2.1 = n + 1 := by
  by_cases h : d.compileOk t s = true
  · rw [compileShader_ok d t s n h]
  · rw [compileShader_fail d t s n (by simpa using h)]

theorem loadShader_ok (d : Driver) (t : ShaderType) (s : String) (n : Nat)
    (h : d.compileOk t s = true) :
    loadShader d t s n =
      (n, n + 1,
       [Event.createShaderObject t n, Event.setSource n s, Event.compile n]) := by
  simp [loadShader, h]

theorem loadShader_fail_log (d : Driver) (t : ShaderType) (s : String) (n : Nat)
    (h : d.compileOk t s = false) (hl : (d.compileLog t s).length ≠ 0) :
    loadShader d t s n =
      (0, n + 1,
       [Event.createShaderObject t n, Event.setSource n s, Event.compile n,
        Event.compileError t ("Error compiling shader:\n" ++ d.compileLog t s),
        Event.destroyShader n]) := by
  simp [loadShader, h, (infoLogLength_gt_one _).mpr hl]

theorem loadShader_fail_nolog (d : Driver) (t : ShaderType) (s : String) (n : Nat)
    (h : d.compileOk t s = false) (hl : (d.compileLog t s).length = 0) :
    loadShader d t s n =
      (0, n + 1,
       [Event.createShaderObject t n, Event.setSource n s, Event.compile n,
        Event.destroyShader n]) := by
  have hno : ¬ 1 < infoLogLength (d.compileLog t s) := by
    rw [infoLogLength_gt_one]
    simpa using hl
  simp [loadShader, h, hno]

theorem loadShader_next (d : Driver) (t : ShaderType) (s : String) (n : Nat) :
    (loadShader d t s n).2.1 = n + 1 := by
  unfold loadShader
  split <;> rfl

theorem createShaderProgram_success (d : Driver) (v f : String) (n : Nat)
    (hn : 0 < n)
    (hv : d.compileOk ShaderType.vertex v = true)
    (hf : d.compileOk ShaderType.fragment f = true)
    (hl : d.linkOk v f = true) :
    createShaderProgram d v f n =
      (n + 2, n + 3,
       [Event.createShaderObject ShaderType.vertex n, Event.setSource n v, Event.compile n,
        Event.createShaderObject ShaderType.fragment (n + 1), Event.setSource (n + 1) f,
        Event.compile (n + 1),
        Event.createProgramObject (n + 2), Event.attachShader (n + 2) n,
        Event.attachShader (n + 2) (n + 1), Event.link (n + 2),
        Event.destroyShader n, Event.destroyShader (n + 1)]) := by
  have h1 := compileShader_ok d ShaderType.vertex v n hv
  have h2 := compileShader_ok d ShaderType.fragment f (n + 1) hf
  simp [createShaderProgram, h1, h2, hl, Nat.pos_iff_ne_zero.mp hn]

theorem createShaderProgram_linkfail (d : Driver) (v f : String) (n : Nat)
    (hn : 0 < n)
    (hv : d.compileOk ShaderType.vertex v = true)
    (hf : d.compileOk ShaderType.fragment f = true)
    (hl : d.linkOk v f = false) :
    createShaderProgram d v f n =
      (0, n + 3,
       [Event.createShaderObject ShaderType.vertex n, Event.setSource n v, Event.compile n,
        Event.createShaderObject ShaderType.fragment (n + 1), Event.setSource (n + 1) f,
        Event.compile (n + 1),
        Event.createProgramObject (n + 2), Event.attachShader (n + 2) n,
        Event.attachShader (n + 2) (n + 1), Event.link (n + 2),
        Event.linkError ("ERROR::PROGRAM::LINKING_FAILED\n" ++ (d.linkLog v f).take 511),
        Event.destroyProgram (n + 2),
        Event.destroyShader n, Event.destroyShader (n + 1)]) := by
  have h1 := compileShader_ok d ShaderType.vertex v n hv
  have h2 := compileShader_ok d ShaderType.fragment f (n + 1) hf
  simp [createShaderProgram, h1, h2, hl, Nat.pos_iff_ne_zero.mp hn]

theorem createShaderProgram_compilefail (d : Driver) (v f : String) (n : Nat)
    (h : (compileShader d ShaderType.vertex v n).1 = 0 ∨
         (compileShader d ShaderType.fragment f (n + 1)).1 = 0) :
    createShaderProgram d v f n =
      (0, n + 2,
       (compileShader d ShaderType.vertex v n).2.2 ++
         (compileShader d ShaderType.fragment f (n + 1)).2.2) := by
  rw [createShaderProgram]
  rw [compileShader_next d ShaderType.vertex v n]
  rw [if_pos h, compileShader_next]

theorem createProgram_success (d : Driver) (v f : String) (n : Nat)
    (hn : 0 < n)
    (hv : d.compileOk ShaderType.vertex v = true)
    (hf : d.compileOk ShaderType.fragment f = true)
    (hl : d.linkOk v f = true) :
    createProgram d v f n =
      (n + 2, n + 3,
       [Event.createShaderObject ShaderType.vertex n, Event.setSource n v, Event.compile n,
        Event.createShaderObject ShaderType.fragment (n + 1), Event.setSource (n + 1) f,
        Event.compile (n + 1),
        Event.createProgramObject (n + 2), Event.attachShader (n + 2) n,
        Event.attachShader (n + 2) (n + 1), Event.link (n + 2),
        Event.destroyShader n, Event.destroyShader (n + 1)]) := by
  have h1 := loadShader_ok d ShaderType.vertex v n hv
  have h2 := loadShader_ok d ShaderType.fragment f (n + 1) hf
  simp [createProgram, h1, h2, hl, Nat.pos_iff_ne_zero.mp hn]

theorem createProgram_linkfail_log (d : Driver) (v f : String) (n : Nat)
    (hn : 0 < n)
    (hv : d.compileOk ShaderType.vertex v = true)
    (hf : d.compileOk ShaderType.fragment f = true)
    (hl : d.linkOk v f = false)
    (hlog : (d.linkLog v f).length ≠ 0) :
    createProgram d v f n =
      (0, n + 3,
       [Event.createShaderObject ShaderType.vertex n, Event.setSource n v, Event.compile n,
        Event.createShaderObject ShaderType.fragment (n + 1), Event.setSource (n + 1) f,
        Event.compile (n + 1),
        Event.createProgramObject (n + 2), Event.attachShader (n + 2) n,
        Event.attachShader (n + 2) (n + 1), Event.link (n + 2),
        Event.linkError ("Error linking program:\n" ++ d.linkLog v f),
        Event.destroyProgram (n + 2)]) := by
  have h1 := loadShader_ok d ShaderType.vertex v n hv
  have h2 := loadShader_ok d ShaderType.fragment f (n + 1) hf
  simp [createProgram, h1, h2, hl, Nat.pos_iff_ne_zero.mp hn,
    (infoLogLength_gt_one _).mpr hlog]

theorem createProgram_linkfail_nolog (d : Driver) (v f : String) (n : Nat)
    (hn : 0 < n)
    (hv : d.compileOk ShaderType.vertex v = true)
    (hf : d.compileOk ShaderType.fragment f = true)
    (hl : d.linkOk v f = false)
    (hlog : (d.linkLog v f).length = 0) :
    createProgram d v f n =
      (0, n + 3,
       [Event.createShaderObject ShaderType.vertex n, Event.setSource n v, Event.compile n,
        Event.createShaderObject ShaderType.fragment (n + 1), Event.setSource (n + 1) f,
        Event.compile (n + 1),
        Event.createProgramObject (n + 2), Event.attachShader (n + 2) n,
        Event.attachShader (n + 2) (n + 1), Event.link (n + 2),
        Event.destroyProgram (n + 2)]) := by
  have h1 := loadShader_ok d ShaderType.vertex v n hv
  have h2 := loadShader_ok d ShaderType.fragment f (n + 1) hf
  have hno : ¬ 1 < infoLogLength (d.linkLog v f) := by
    rw [infoLogLength_gt_one]
    simpa using hlog
  simp [createProgram, h1, h2, hl, Nat.pos_iff_ne_zero.mp hn, hno]

theorem createProgram_compilefail (d : Driver) (v f : String) (n : Nat)
    (h : (loadShader d ShaderType.vertex v n).1 = 0 ∨
         (loadShader d ShaderType.fragment f (n + 1)).1 = 0) :
    createProgram d v f n =
      (0, n + 2,
       (loadShader d ShaderType.vertex v n).2.2 ++
         (loadShader d ShaderType.fragment f (n + 1)).2.2) := by
  rw [createProgram]
  rw [loadShader_next d ShaderType.vertex v n]
  rw [if_pos h, loadShader_next]

theorem string_take_length_le (s : String) (n : Nat) : (s.take n).length ≤ n := by
  rw [String.take_eq]
  show (s.1.take n).length ≤ n
  simp

theorem compileShader_no_program (d : Driver) (t : ShaderType) (s : String) (n : Nat) :
    (compileShader d t s n).2.2.filter isProgramCall = [] := by
  by_cases h : d.compileOk t s = true
  · rw [compileShader_ok d t s n h]
    simp [isProgramCall]
  · rw [compileShader_fail d t s n (by simpa using h)]
    simp [isProgramCall]

theorem loadShader_no_program (d : Driver) (t : ShaderType) (s : String) (n : Nat) :
    (loadShader d t s n).2.2.filter isProgramCall = [] := by
  by_cases h : d.compileOk t s = true
  · rw [loadShader_ok d t s n h]
    simp [isProgramCall]
  · by_cases hl : (d.compileLog t s).length = 0
    · rw [loadShader_fail_nolog d t s n (by simpa using h) hl]
      simp [isProgramCall]
    · rw [loadShader_fail_log d t s n (by simpa using h) hl]
      simp [isProgramCall]

/-! Concrete drivers used as inputs of witnesses and counterexamples. -/

/-- Driver on which every compile and link succeeds. -/
def allOkDriver : Driver where
  compileOk := fun _ _ => true
  compileLog := fun _ _ => ""
  linkOk := fun _ _ => true
  linkLog := fun _ _ => ""

/-- Driver on which vertex shaders compile but fragment shaders fail,
with a nonempty compile log and a succeeding link step. -/
def fragBadDriver : Driver where
  compileOk := fun t _ => match t with | ShaderType.vertex => true | ShaderType.fragment => false
  compileLog := fun _ _ => "fragment stage syntax error"
  linkOk := fun _ _ => true
  linkLog := fun _ _ => ""

/-- Driver on which both stages compile but every link fails, and the
driver produces an empty program info log. -/
def linkFailDriver : Driver where
  compileOk := fun _ _ => true
  compileLog := fun _ _ => ""
  linkOk := fun _ _ => false
  linkLog := fun _ _ => ""

/-- Driver on which every compile fails while the driver produces an
empty info log. -/
def silentFailDriver : Driver where
  compileOk := fun _ _ => false
  compileLog := fun _ _ => ""
  linkOk := fun _ _ => true
  linkLog := fun _ _ => ""

/-- An info log of 600 characters, longer than the 512-byte buffer. -/
def longLog : String := String.mk (List.replicate 600 'x')

/-- Driver on which every compile fails with the 600-character log. -/
def longLogDriver : Driver where
  compileOk := fun _ _ => false
  compileLog := fun _ _ => longLog
  linkOk := fun _ _ => false
  linkLog := fun _ _ => longLog

/-! The claims. -/

/-- C3: whenever either shader handle fed into the link phase is the
failure sentinel `0`, the build returns `0` without issuing any
`createProgramObject`, `attachShader` or `link` call.  The guard is the
`if (!vertexShader || !fragmentShader) return 0;` test in
`createShaderProgram` (`src/main.cpp`) and the identical test in
`createProgram` (`src/main_vxworks.cpp`); the conclusion holds for
both copies, each under its own copy's hypothesis. -/
theorem C3_link_guard (d : Driver) (v f : String) (n : Nat) :
    (((compileShader d ShaderType.vertex v n).1 = 0 ∨
        (compileShader d ShaderType.fragment f (n + 1)).1 = 0) →
      (createShaderProgram d v f n).1 = 0 ∧
      (createShaderProgram d v f n).2.2.filter isProgramCall = []) ∧
    (((loadShader d ShaderType.vertex v n).1 = 0 ∨
        (loadShader d ShaderType.fragment f (n + 1)).1 = 0) →
      (createProgram d v f n).1 = 0 ∧
      (createProgram d v f n).2.2.filter isProgramCall = []) := by
  constructor
  · intro h
    rw [createShaderProgram_compilefail d v f n h]
    refine ⟨rfl, ?_⟩
    simp only [List.filter_append, compileShader_no_program, List.append_nil]
  · intro h
    rw [createProgram_compilefail d v f n h]
    refine ⟨rfl, ?_⟩
    simp only [List.filter_append, loadShader_no_program, List.append_nil]

/-- Witness for C3 on a concrete driver whose fragment compile fails. -/
theorem C3_link_guard_witness :
    ((compileShader fragBadDriver ShaderType.vertex "v" 1).1 = 0 ∨
      (compileShader fragBadDriver ShaderType.fragment "f" 2).1 = 0) ∧
    (createShaderProgram fragBadDriver "v" "f" 1).1 = 0 ∧
    (createShaderProgram fragBadDriver "v" "f" 1).2.2.filter isProgramCall = [] ∧
    ((loadShader fragBadDriver ShaderType.vertex "v" 1).1 = 0 ∨
      (loadShader fragBadDriver ShaderType.fragment "f" 2).1 = 0) ∧
    (createProgram fragBadDriver "v" "f" 1).1 = 0 ∧
    (createProgram fragBadDriver "v" "f" 1).2.2.filter isProgramCall = [] := by
  have hd : (compileShader fragBadDriver ShaderType.vertex "v" 1).1 = 0 ∨
      (compileShader fragBadDriver ShaderType.fragment "f" 2).1 = 0 :=
    Or.inr (by rw [compileShader_fail fragBadDriver ShaderType.fragment "f" 2 rfl])
  have hx : (loadShader fragBadDriver ShaderType.vertex "v" 1).1 = 0 ∨
      (loadShader fragBadDriver ShaderType.fragment "f" 2).1 = 0 :=
    Or.inr (by rw [loadShader_fail_log fragBadDriver ShaderType.fragment "f" 2 rfl (by decide)])
  have h := C3_link_guard fragBadDriver "v" "f" 1
  exact ⟨hd, (h.1 hd).1, (h.1 hd).2, hx, (h.2 hx).1, (h.2 hx).2⟩

/-- C7: in both copies the returned handle is either the null handle `0`
or the fully valid program: both stages reported compile success, the
link-status query reported success, the returned handle is exactly the
program object that was created and linked during the call, and no
`destroyProgram` was issued on it.  No created-but-unlinked or
failed-link program handle is ever returned. -/
theorem C7_result_valid_or_null (d : Driver) (v f : String) (n : Nat) :
    ((createShaderProgram d v f n).1 = 0 ∨
      ((createShaderProgram d v f n).1 = n + 2 ∧
       d.compileOk ShaderType.vertex v = true ∧
       d.compileOk ShaderType.fragment f = true ∧
       d.linkOk v f = true ∧
       Event.link (n + 2) ∈ (createShaderProgram d v f n).2.2 ∧
       Event.destroyProgram (n + 2) ∉ (createShaderProgram d v f n).2.2)) ∧
    ((createProgram d v f n).1 = 0 ∨
      ((createProgram d v f n).1 = n + 2 ∧
       d.compileOk ShaderType.vertex v = true ∧
       d.compileOk ShaderType.fragment f = true ∧
       d.linkOk v f = true ∧
       Event.link (n + 2) ∈ (createProgram d v f n).2.2 ∧
       Event.destroyProgram (n + 2) ∉ (createProgram d v f n).2.2)) := by
  constructor
  · by_cases hv : d.compileOk ShaderType.vertex v = true
    · by_cases hf : d.compileOk ShaderType.fragment f = true
      · by_cases hn : n = 0
        · left
          rw [createShaderProgram_compilefail d v f n
            (Or.inl (by rw [compileShader_ok d ShaderType.vertex v n hv, hn]))]
        · by_cases hl : d.linkOk v f = true
          · right
            rw [createShaderProgram_success d v f n (Nat.pos_of_ne_zero hn) hv hf hl]
            refine ⟨rfl, hv, hf, hl, by simp, by simp⟩
          · left
            rw [createShaderProgram_linkfail d v f n (Nat.pos_of_ne_zero hn) hv hf
              (by simpa using hl)]
      · left
        rw [createShaderProgram_compilefail d v f n
          (Or.inr (by rw [compileShader_fail d ShaderType.fragment f (n + 1)
            (by simpa using hf)]))]
    · left
      rw [createShaderProgram_compilefail d v f n
        (Or.inl (by rw [compileShader_fail d ShaderType.vertex v n (by simpa using hv)]))]
  · by_cases hv : d.compileOk ShaderType.vertex v = true
    · by_cases hf : d.compileOk ShaderType.fragment f = true
      · by_cases hn : n = 0
        · left
          rw [createProgram_compilefail d v f n
            (Or.inl (by rw [loadShader_ok d ShaderType.vertex v n hv, hn]))]
        · by_cases hl : d.linkOk v f = true
          · right
            rw [createProgram_success d v f n (Nat.pos_of_ne_zero hn) hv hf hl]
            refine ⟨rfl, hv, hf, hl, by simp, by simp⟩
          · left
            by_cases hlog : (d.linkLog v f).length = 0
            · rw [createProgram_linkfail_nolog d v f n (Nat.pos_of_ne_zero hn) hv hf
                (by simpa using hl) hlog]
            · rw [createProgram_linkfail_log d v f n (Nat.pos_of_ne_zero hn) hv hf
                (by simpa using hl) hlog]
      · left
        by_cases hlog : (d.compileLog ShaderType.fragment f).length = 0
        · rw [createProgram_compilefail d v f n
            (Or.inr (by rw [loadShader_fail_nolog d ShaderType.fragment f (n + 1)
              (by simpa using hf) hlog]))]
        · rw [createProgram_compilefail d v f n
            (Or.inr (by rw [loadShader_fail_log d ShaderType.fragment f (n + 1)
              (by simpa using hf) hlog]))]
    · left
      by_cases hlog : (d.compileLog ShaderType.vertex v).length = 0
      · rw [createProgram_compilefail d v f n
          (Or.inl (by rw [loadShader_fail_nolog d ShaderType.vertex v n
            (by simpa using hv) hlog]))]
      · rw [createProgram_compilefail d v f n
          (Or.inl (by rw [loadShader_fail_log d ShaderType.vertex v n
            (by simpa using hv) hlog]))]

theorem countCreateShader_append (a b : List Event) :
    countCreateShader (a ++ b) = countCreateShader a + countCreateShader b := by
  simp [countCreateShader, List.filter_append]

theorem countDestroyShader_append (a b : List Event) :
    countDestroyShader (a ++ b) = countDestroyShader a + countDestroyShader b := by
  simp [countDestroyShader, List.filter_append]

theorem compileShader_countCreate (d : Driver) (t : ShaderType) (s : String) (n : Nat) :
    countCreateShader (compileShader d t s n).2.2 = 1 := by
  by_cases h : d.compileOk t s = true
  · rw [compileShader_ok d t s n h]
    simp [countCreateShader, isCreateShader]
  · rw [compileShader_fail d t s n (by simpa using h)]
    simp [countCreateShader, isCreateShader]

theorem compileShader_countDestroy (d : Driver) (t : ShaderType) (s : String) (n : Nat) :
    countDestroyShader (compileShader d t s n).2.2 =
      (if d.compileOk t s = true then 0 else 1) := by
  by_cases h : d.compileOk t s = true
  · rw [compileShader_ok d t s n h, if_pos h]
    simp [countDestroyShader, isDestroyShader]
  · rw [compileShader_fail d t s n (by simpa using h), if_neg h]
    simp [countDestroyShader, isDestroyShader]

theorem loadShader_countCreate (d : Driver) (t : ShaderType) (s : String) (n : Nat) :
    countCreateShader (loadShader d t s n).2.2 = 1 := by
  by_cases h : d.compileOk t s = true
  · rw [loadShader_ok d t s n h]
    simp [countCreateShader, isCreateShader]
  · by_cases hl : (d.compileLog t s).length = 0
    · rw [loadShader_fail_nolog d t s n (by simpa using h) hl]
      simp [countCreateShader, isCreateShader]
    · rw [loadShader_fail_log d t s n (by simpa using h) hl]
      simp [countCreateShader, isCreateShader]

theorem loadShader_countDestroy (d : Driver) (t : ShaderType) (s : String) (n : Nat) :
    countDestroyShader (loadShader d t s n).2.2 =
      (if d.compileOk t s = true then 0 else 1) := by
  by_cases h : d.compileOk t s = true
  · rw [loadShader_ok d t s n h, if_pos h]
    simp [countDestroyShader, isDestroyShader]
  · rw [if_neg h]
    by_cases hl : (d.compileLog t s).length = 0
    · rw [loadShader_fail_nolog d t s n (by simpa using h) hl]
      simp [countDestroyShader, isDestroyShader]
    · rw [loadShader_fail_log d t s n (by simpa using h) hl]
      simp [countDestroyShader, isDestroyShader]

theorem compileShader_result_zero (d : Driver) (t : ShaderType) (s : String) (n : Nat)
    (h : d.compileOk t s = false) : (compileShader d t s n).1 = 0 := by
  simp [compileShader, h]

theorem loadShader_result_zero (d : Driver) (t : ShaderType) (s : String) (n : Nat)
    (h : d.compileOk t s = false) : (loadShader d t s n).1 = 0 := by
  simp [loadShader, h]

/-- C1 as stated is false: when the vertex source compiles and the
fragment source does not, the build creates two shader objects but issues
only one `destroyShader` (the failed fragment shader, inside the compile
helper); the successfully compiled vertex shader is never destroyed. -/
theorem C1_counterexample :
    countCreateShader (createShaderProgram fragBadDriver "cv" "cf" 1).2.2 = 2 ∧
    countDestroyShader (createShaderProgram fragBadDriver "cv" "cf" 1).2.2 = 1 := by
  rw [createShaderProgram_compilefail fragBadDriver "cv" "cf" 1
    (Or.inr (compileShader_result_zero fragBadDriver ShaderType.fragment "cf" 2 rfl))]
  rw [countCreateShader_append, countDestroyShader_append,
    compileShader_countCreate, compileShader_countCreate,
    compileShader_countDestroy, compileShader_countDestroy]
  simp [fragBadDriver]

/-- C1 amended: each build call creates exactly two shader objects; every
created shader object is destroyed on the all-success path and when both
compiles fail, and on success only the program object survives.  But when
exactly one stage fails to compile, only the failed stage's shader is
destroyed (2 creates, 1 destroy) in both copies, and in the VxWorks copy
a link failure destroys neither shader (2 creates, 0 destroys). -/
theorem C1_amended (d : Driver) (v f : String) (n : Nat) (hn : 0 < n) :
    countCreateShader (createShaderProgram d v f n).2.2 = 2 ∧
    countCreateShader (createProgram d v f n).2.2 = 2 ∧
    countDestroyShader (createShaderProgram d v f n).2.2 =
      (if d.compileOk ShaderType.vertex v = d.compileOk ShaderType.fragment f
       then 2 else 1) ∧
    countDestroyShader (createProgram d v f n).2.2 =
      (if d.compileOk ShaderType.vertex v = d.compileOk ShaderType.fragment f
       then (if d.compileOk ShaderType.vertex v = true ∧ d.linkOk v f = false
             then 0 else 2)
       else 1) ∧
    ((createShaderProgram d v f n).1 ≠ 0 →
      Event.destroyProgram (createShaderProgram d v f n).1 ∉
        (createShaderProgram d v f n).2.2 ∧
      countDestroyShader (createShaderProgram d v f n).2.2 = 2) ∧
    ((createProgram d v f n).1 ≠ 0 →
      Event.destroyProgram (createProgram d v f n).1 ∉ (createProgram d v f n).2.2 ∧
      countDestroyShader (createProgram d v f n).2.2 = 2) := by
  by_cases hv : d.compileOk ShaderType.vertex v = true
  · by_cases hf : d.compileOk ShaderType.fragment f = true
    · by_cases hl : d.linkOk v f = true
      · rw [createShaderProgram_success d v f n hn hv hf hl,
          createProgram_success d v f n hn hv hf hl]
        refine ⟨?_, ?_, ?_, ?_, ?_, ?_⟩
        · simp [countCreateShader, isCreateShader]
        · simp [countCreateShader, isCreateShader]
        · simp [hv, hf, countDestroyShader, isDestroyShader]
        · simp [hv, hf, hl, countDestroyShader, isDestroyShader]
        · intro _
          exact ⟨by simp, by simp [countDestroyShader, isDestroyShader]⟩
        · intro _
          exact ⟨by simp, by simp [countDestroyShader, isDestroyShader]⟩
      · have hl0 : d.linkOk v f = false := by simpa using hl
        rw [createShaderProgram_linkfail d v f n hn hv hf hl0]
        by_cases hlog : (d.linkLog v f).length = 0
        · rw [createProgram_linkfail_nolog d v f n hn hv hf hl0 hlog]
          refine ⟨?_, ?_, ?_, ?_, by simp, by simp⟩
          · simp [countCreateShader, isCreateShader]
          · simp [countCreateShader, isCreateShader]
          · simp [hv, hf, countDestroyShader, isDestroyShader]
          · simp [hv, hf, hl0, countDestroyShader, isDestroyShader]
        · rw [createProgram_linkfail_log d v f n hn hv hf hl0 hlog]
          refine ⟨?_, ?_, ?_, ?_, by simp, by simp⟩
          · simp [countCreateShader, isCreateShader]
          · simp [countCreateShader, isCreateShader]
          · simp [hv, hf, countDestroyShader, isDestroyShader]
          · simp [hv, hf, hl0, countDestroyShader, isDestroyShader]
    · have hf0 : d.compileOk ShaderType.fragment f = false := by simpa using hf
      rw [createShaderProgram_compilefail d v f n
        (Or.inr (compileShader_result_zero d ShaderType.fragment f (n + 1) hf0))]
      rw [createProgram_compilefail d v f n
        (Or.inr (loadShader_result_zero d ShaderType.fragment f (n + 1) hf0))]
      rw [countCreateShader_append, countDestroyShader_append,
        countCreateShader_append, countDestroyShader_append,
        compileShader_countCreate, compileShader_countCreate,
        compileShader_countDestroy, compileShader_countDestroy,
        loadShader_countCreate, loadShader_countCreate,
        loadShader_countDestroy, loadShader_countDestroy]
      simp [hv, hf0]
  · have hv0 : d.compileOk ShaderType.vertex v = false := by simpa using hv
    rw [createShaderProgram_compilefail d v f n
      (Or.inl (compileShader_result_zero d ShaderType.vertex v n hv0))]
    rw [createProgram_compilefail d v f n
      (Or.inl (loadShader_result_zero d ShaderType.vertex v n hv0))]
    rw [countCreateShader_append, countDestroyShader_append,
      countCreateShader_append, countDestroyShader_append,
      compileShader_countCreate, compileShader_countCreate,
      compileShader_countDestroy, compileShader_countDestroy,
      loadShader_countCreate, loadShader_countCreate,
      loadShader_countDestroy, loadShader_countDestroy]
    cases hF : d.compileOk ShaderType.fragment f <;> simp [hv0, hF]

/-- Witness for the amended C1 on the all-success driver. -/
theorem C1_amended_witness :
    0 < 1 ∧
    (countCreateShader (createShaderProgram allOkDriver "v" "f" 1).2.2 = 2 ∧
     countCreateShader (createProgram allOkDriver "v" "f" 1).2.2 = 2 ∧
     countDestroyShader (createShaderProgram allOkDriver "v" "f" 1).2.2 =
       (if allOkDriver.compileOk ShaderType.vertex "v" =
           allOkDriver.compileOk ShaderType.fragment "f"
        then 2 else 1) ∧
     countDestroyShader (createProgram allOkDriver "v" "f" 1).2.2 =
       (if allOkDriver.compileOk ShaderType.vertex "v" =
           allOkDriver.compileOk ShaderType.fragment "f"
        then (if allOkDriver.compileOk ShaderType.vertex "v" = true ∧
                 allOkDriver.linkOk "v" "f" = false
              then 0 else 2)
        else 1) ∧
     ((createShaderProgram allOkDriver "v" "f" 1).1 ≠ 0 →
       Event.destroyProgram (createShaderProgram allOkDriver "v" "f" 1).1 ∉
         (createShaderProgram allOkDriver "v" "f" 1).2.2 ∧
       countDestroyShader (createShaderProgram allOkDriver "v" "f" 1).2.2 = 2) ∧
     ((createProgram allOkDriver "v" "f" 1).1 ≠ 0 →
       Event.destroyProgram (createProgram allOkDriver "v" "f" 1).1 ∉
         (createProgram allOkDriver "v" "f" 1).2.2 ∧
       countDestroyShader (createProgram allOkDriver "v" "f" 1).2.2 = 2)) :=
  ⟨Nat.one_pos, C1_amended allOkDriver "v" "f" 1 Nat.one_pos⟩

/-- C2 as stated is false: with a driver that compiles the vertex source
and rejects the fragment source, the build does create the vertex shader
(handle 1) and returns the sentinel, but never issues `destroyShader 1`:
the vertex shader object leaks past the call (in both copies). -/
theorem C2_counterexample :
    (createShaderProgram fragBadDriver "vs" "fs" 1).1 = 0 ∧
    Event.createShaderObject ShaderType.vertex 1 ∈
      (createShaderProgram fragBadDriver "vs" "fs" 1).2.2 ∧
    Event.destroyShader 1 ∉ (createShaderProgram fragBadDriver "vs" "fs" 1).2.2 ∧
    (createProgram fragBadDriver "vs" "fs" 1).1 = 0 ∧
    Event.createShaderObject ShaderType.vertex 1 ∈
      (createProgram fragBadDriver "vs" "fs" 1).2.2 ∧
    Event.destroyShader 1 ∉ (createProgram fragBadDriver "vs" "fs" 1).2.2 := by
  rw [createShaderProgram_compilefail fragBadDriver "vs" "fs" 1
    (Or.inr (compileShader_result_zero fragBadDriver ShaderType.fragment "fs" 2 rfl))]
  rw [createProgram_compilefail fragBadDriver "vs" "fs" 1
    (Or.inr (loadShader_result_zero fragBadDriver ShaderType.fragment "fs" 2 rfl))]
  rw [compileShader_ok fragBadDriver ShaderType.vertex "vs" 1 rfl,
    compileShader_fail fragBadDriver ShaderType.fragment "fs" 2 rfl,
    loadShader_ok fragBadDriver ShaderType.vertex "vs" 1 rfl,
    loadShader_fail_log fragBadDriver ShaderType.fragment "fs" 2 rfl (by decide)]
  refine ⟨rfl, by simp, by simp, rfl, by simp, by simp⟩

/-- C2 amended: when the vertex source compiles and the fragment source
fails to compile, both copies create no program object and return the
sentinel `0`; the compile diagnostic is attributed to the fragment stage
only (the desktop copy emits exactly one, the VxWorks copy emits one
exactly when the driver's log is nonempty); but the vertex shader object
(handle `n`) is NOT destroyed before the build returns — it leaks. -/
theorem C2_amended (d : Driver) (v f : String) (n : Nat)
    (hv : d.compileOk ShaderType.vertex v = true)
    (hf : d.compileOk ShaderType.fragment f = false) :
    (createShaderProgram d v f n).1 = 0 ∧
    (createShaderProgram d v f n).2.2.filter isProgramCall = [] ∧
    countCompileErrorFor ShaderType.fragment (createShaderProgram d v f n).2.2 = 1 ∧
    countCompileErrorFor ShaderType.vertex (createShaderProgram d v f n).2.2 = 0 ∧
    Event.destroyShader n ∉ (createShaderProgram d v f n).2.2 ∧
    (createProgram d v f n).1 = 0 ∧
    (createProgram d v f n).2.2.filter isProgramCall = [] ∧
    countCompileErrorFor ShaderType.fragment (createProgram d v f n).2.2 =
      (if (d.compileLog ShaderType.fragment f).length = 0 then 0 else 1) ∧
    countCompileErrorFor ShaderType.vertex (createProgram d v f n).2.2 = 0 ∧
    Event.destroyShader n ∉ (createProgram d v f n).2.2 := by
  rw [createShaderProgram_compilefail d v f n
    (Or.inr (compileShader_result_zero d ShaderType.fragment f (n + 1) hf))]
  rw [createProgram_compilefail d v f n
    (Or.inr (loadShader_result_zero d ShaderType.fragment f (n + 1) hf))]
  rw [compileShader_ok d ShaderType.vertex v n hv,
    compileShader_fail d ShaderType.fragment f (n + 1) hf,
    loadShader_ok d ShaderType.vertex v n hv]
  by_cases hlog : (d.compileLog ShaderType.fragment f).length = 0
  · rw [loadShader_fail_nolog d ShaderType.fragment f (n + 1) hf hlog, if_pos hlog]
    refine ⟨rfl, by simp [isProgramCall], ?_, ?_, by simp, rfl,
      by simp [isProgramCall], ?_, ?_, by simp⟩
    · simp [countCompileErrorFor, isCompileErrorFor]
    · simp [countCompileErrorFor, isCompileErrorFor]
    · simp [countCompileErrorFor, isCompileErrorFor]
    · simp [countCompileErrorFor, isCompileErrorFor]
  · rw [loadShader_fail_log d ShaderType.fragment f (n + 1) hf hlog, if_neg hlog]
    refine ⟨rfl, by simp [isProgramCall], ?_, ?_, by simp, rfl,
      by simp [isProgramCall], ?_, ?_, by simp⟩
    · simp [countCompileErrorFor, isCompileErrorFor]
    · simp [countCompileErrorFor, isCompileErrorFor]
    · simp [countCompileErrorFor, isCompileErrorFor]
    · simp [countCompileErrorFor, isCompileErrorFor]

/-- Witness for the amended C2 on the fragment-failing driver. -/
theorem C2_amended_witness :
    fragBadDriver.compileOk ShaderType.vertex "wv" = true ∧
    fragBadDriver.compileOk ShaderType.fragment "wf" = false ∧
    ((createShaderProgram fragBadDriver "wv" "wf" 3).1 = 0 ∧
     (createShaderProgram fragBadDriver "wv" "wf" 3).2.2.filter isProgramCall = [] ∧
     countCompileErrorFor ShaderType.fragment
       (createShaderProgram fragBadDriver "wv" "wf" 3).2.2 = 1 ∧
     countCompileErrorFor ShaderType.vertex
       (createShaderProgram fragBadDriver "wv" "wf" 3).2.2 = 0 ∧
     Event.destroyShader 3 ∉ (createShaderProgram fragBadDriver "wv" "wf" 3).2.2 ∧
     (createProgram fragBadDriver "wv" "wf" 3).1 = 0 ∧
     (createProgram fragBadDriver "wv" "wf" 3).2.2.filter isProgramCall = [] ∧
     countCompileErrorFor ShaderType.fragment
       (createProgram fragBadDriver "wv" "wf" 3).2.2 =
       (if (fragBadDriver.compileLog ShaderType.fragment "wf").length = 0
        then 0 else 1) ∧
     countCompileErrorFor ShaderType.vertex
       (createProgram fragBadDriver "wv" "wf" 3).2.2 = 0 ∧
     Event.destroyShader 3 ∉ (createProgram fragBadDriver "wv" "wf" 3).2.2) :=
  ⟨rfl, rfl, C2_amended fragBadDriver "wv" "wf" 3 rfl rfl⟩

/-- C4 as stated is false for the VxWorks copy: with both stages compiled
and a failing link (here with an empty driver log), `createProgram`
destroys the program object and returns `0`, but issues no `destroyShader`
call at all on its way out (and, the log being empty, also emits no
diagnostic). -/
theorem C4_counterexample :
    linkFailDriver.linkOk "lv" "lf" = false ∧
    (createProgram linkFailDriver "lv" "lf" 1).1 = 0 ∧
    Event.destroyProgram 3 ∈ (createProgram linkFailDriver "lv" "lf" 1).2.2 ∧
    countDestroyShader (createProgram linkFailDriver "lv" "lf" 1).2.2 = 0 ∧
    (createProgram linkFailDriver "lv" "lf" 1).2.2.filter isDiagnostic = [] := by
  rw [createProgram_linkfail_nolog linkFailDriver "lv" "lf" 1 Nat.one_pos rfl rfl rfl rfl]
  refine ⟨rfl, rfl, by simp, by simp [countDestroyShader, isDestroyShader],
    by simp [isDiagnostic]⟩

/-- C4 amended: on a link failure after two successful compiles, the
desktop copy behaves exactly as the claim says: it emits the program log
(truncated to 511 characters) prefixed as a linking failure, destroys the
program object, destroys both shader objects and returns `0`.  The
VxWorks copy destroys the program object and returns `0`, but emits the
(full) prefixed log only when the driver log is nonempty and destroys
neither shader object. -/
theorem C4_amended (d : Driver) (v f : String) (n : Nat) (hn : 0 < n)
    (hv : d.compileOk ShaderType.vertex v = true)
    (hf : d.compileOk ShaderType.fragment f = true)
    (hl : d.linkOk v f = false) :
    createShaderProgram d v f n =
      (0, n + 3,
       [Event.createShaderObject ShaderType.vertex n, Event.setSource n v, Event.compile n,
        Event.createShaderObject ShaderType.fragment (n + 1), Event.setSource (n + 1) f,
        Event.compile (n + 1),
        Event.createProgramObject (n + 2), Event.attachShader (n + 2) n,
        Event.attachShader (n + 2) (n + 1), Event.link (n + 2),
        Event.linkError ("ERROR::PROGRAM::LINKING_FAILED\n" ++ (d.linkLog v f).take 511),
        Event.destroyProgram (n + 2),
        Event.destroyShader n, Event.destroyShader (n + 1)]) ∧
    (createProgram d v f n).1 = 0 ∧
    Event.destroyProgram (n + 2) ∈ (createProgram d v f n).2.2 ∧
    countDestroyShader (createProgram d v f n).2.2 = 0 ∧
    (createProgram d v f n).2.2.filter isDiagnostic =
      (if (d.linkLog v f).length = 0 then []
       else [Event.linkError ("Error linking program:\n" ++ d.linkLog v f)]) := by
  refine ⟨createShaderProgram_linkfail d v f n hn hv hf hl, ?_⟩
  by_cases hlog : (d.linkLog v f).length = 0
  · rw [createProgram_linkfail_nolog d v f n hn hv hf hl hlog, if_pos hlog]
    exact ⟨rfl, by simp, by simp [countDestroyShader, isDestroyShader],
      by simp [isDiagnostic]⟩
  · rw [createProgram_linkfail_log d v f n hn hv hf hl hlog, if_neg hlog]
    exact ⟨rfl, by simp, by simp [countDestroyShader, isDestroyShader],
      by simp [isDiagnostic]⟩

/-- Witness for the amended C4 on the link-failing driver. -/
theorem C4_amended_witness :
    0 < 2 ∧
    linkFailDriver.compileOk ShaderType.vertex "wl1" = true ∧
    linkFailDriver.compileOk ShaderType.fragment "wl2" = true ∧
    linkFailDriver.linkOk "wl1" "wl2" = false ∧
    (createShaderProgram linkFailDriver "wl1" "wl2" 2 =
      (0, 2 + 3,
       [Event.createShaderObject ShaderType.vertex 2, Event.setSource 2 "wl1",
        Event.compile 2,
        Event.createShaderObject ShaderType.fragment (2 + 1), Event.setSource (2 + 1) "wl2",
        Event.compile (2 + 1),
        Event.createProgramObject (2 + 2), Event.attachShader (2 + 2) 2,
        Event.attachShader (2 + 2) (2 + 1), Event.link (2 + 2),
        Event.linkError
          ("ERROR::PROGRAM::LINKING_FAILED\n" ++ (linkFailDriver.linkLog "wl1" "wl2").take 511),
        Event.destroyProgram (2 + 2),
        Event.destroyShader 2, Event.destroyShader (2 + 1)]) ∧
     (createProgram linkFailDriver "wl1" "wl2" 2).1 = 0 ∧
     Event.destroyProgram (2 + 2) ∈ (createProgram linkFailDriver "wl1" "wl2" 2).2.2 ∧
     countDestroyShader (createProgram linkFailDriver "wl1" "wl2" 2).2.2 = 0 ∧
     (createProgram linkFailDriver "wl1" "wl2" 2).2.2.filter isDiagnostic =
       (if (linkFailDriver.linkLog "wl1" "wl2").length = 0 then []
        else [Event.linkError
          ("Error linking program:\n" ++ linkFailDriver.linkLog "wl1" "wl2")])) :=
  ⟨by decide, rfl, rfl, rfl,
    C4_amended linkFailDriver "wl1" "wl2" 2 (by decide) rfl rfl rfl⟩

/-- C5 as stated is false for the VxWorks copy: when the driver fails the
compile and reports an empty info log, `loadShader` destroys the shader
and returns `0` but emits nothing at all to the error channel (its
`infoLen > 1` guard skips the retrieval and the emission). -/
theorem C5_counterexample :
    silentFailDriver.compileOk ShaderType.vertex "bad" = false ∧
    (loadShader silentFailDriver ShaderType.vertex "bad" 1).1 = 0 ∧
    Event.destroyShader 1 ∈ (loadShader silentFailDriver ShaderType.vertex "bad" 1).2.2 ∧
    (loadShader silentFailDriver ShaderType.vertex "bad" 1).2.2.filter isDiagnostic = [] := by
  rw [loadShader_fail_nolog silentFailDriver ShaderType.vertex "bad" 1 rfl rfl]
  exact ⟨rfl, rfl, by simp, by simp [isDiagnostic]⟩

/-- C5 amended: on a failed compile both helpers destroy the shader they
just created and return `0`.  The desktop `compileShader` always emits the
tagged diagnostic (with the log truncated to 511 characters); the VxWorks
`loadShader` emits the tagged full log only when the queried log length
exceeds one, i.e. when the driver log is nonempty. -/
theorem C5_amended (d : Driver) (t : ShaderType) (s : String) (n : Nat)
    (h : d.compileOk t s = false) :
    compileShader d t s n =
      (0, n + 1,
       [Event.createShaderObject t n, Event.setSource n s, Event.compile n,
        Event.compileError t
          ("ERROR::SHADER::COMPILATION_FAILED\n" ++ (d.compileLog t s).take 511),
        Event.destroyShader n]) ∧
    (loadShader d t s n).1 = 0 ∧
    Event.destroyShader n ∈ (loadShader d t s n).2.2 ∧
    (loadShader d t s n).2.2.filter isDiagnostic =
      (if (d.compileLog t s).length = 0 then []
       else [Event.compileError t ("Error compiling shader:\n" ++ d.compileLog t s)]) := by
  refine ⟨compileShader_fail d t s n h, ?_⟩
  by_cases hlog : (d.compileLog t s).length = 0
  · rw [loadShader_fail_nolog d t s n h hlog, if_pos hlog]
    exact ⟨rfl, by simp, by simp [isDiagnostic]⟩
  · rw [loadShader_fail_log d t s n h hlog, if_neg hlog]
    exact ⟨rfl, by simp, by simp [isDiagnostic]⟩

/-- Witness for the amended C5 on the fragment-failing driver, which has
a nonempty compile log. -/
theorem C5_amended_witness :
    fragBadDriver.compileOk ShaderType.fragment "w5" = false ∧
    (compileShader fragBadDriver ShaderType.fragment "w5" 4 =
      (0, 4 + 1,
       [Event.createShaderObject ShaderType.fragment 4, Event.setSource 4 "w5",
        Event.compile 4,
        Event.compileError ShaderType.fragment
          ("ERROR::SHADER::COMPILATION_FAILED\n" ++
            (fragBadDriver.compileLog ShaderType.fragment "w5").take 511),
        Event.destroyShader 4]) ∧
     (loadShader fragBadDriver ShaderType.fragment "w5" 4).1 = 0 ∧
     Event.destroyShader 4 ∈ (loadShader fragBadDriver ShaderType.fragment "w5" 4).2.2 ∧
     (loadShader fragBadDriver ShaderType.fragment "w5" 4).2.2.filter isDiagnostic =
       (if (fragBadDriver.compileLog ShaderType.fragment "w5").length = 0 then []
        else [Event.compileError ShaderType.fragment
          ("Error compiling shader:\n" ++ fragBadDriver.compileLog ShaderType.fragment "w5")])) :=
  ⟨rfl, C5_amended fragBadDriver ShaderType.fragment "w5" 4 rfl⟩

/-- C6 as stated is false: on this build call both compiles fail (a
failure certainly occurs) and the VxWorks copy returns the sentinel, yet
no diagnostic text whatsoever is emitted, because the driver's info logs
are empty and `loadShader` skips emission when the queried length is not
greater than one. -/
theorem C6_counterexample :
    silentFailDriver.compileOk ShaderType.vertex "va" = false ∧
    silentFailDriver.compileOk ShaderType.fragment "fa" = false ∧
    (createProgram silentFailDriver "va" "fa" 1).1 = 0 ∧
    (createProgram silentFailDriver "va" "fa" 1).2.2.filter isDiagnostic = [] := by
  rw [createProgram_compilefail silentFailDriver "va" "fa" 1
    (Or.inl (loadShader_result_zero silentFailDriver ShaderType.vertex "va" 1 rfl))]
  rw [loadShader_fail_nolog silentFailDriver ShaderType.vertex "va" 1 rfl rfl,
    loadShader_fail_nolog silentFailDriver ShaderType.fragment "fa" 2 rfl rfl]
  exact ⟨rfl, rfl, rfl, by simp [isDiagnostic]⟩

/-- C6 amended: both copies communicate failure solely through the
sentinel return value — the result is `0` exactly when a compile or the
link failed, and both functions are total Lean functions (no abort, no
exception).  The desktop copy also reports every failure: whenever it
returns `0`, its trace contains at least one diagnostic emission.  The
VxWorks copy may stay silent (when the driver log is empty). -/
theorem C6_amended (d : Driver) (v f : String) (n : Nat) (hn : 0 < n) :
    ((createShaderProgram d v f n).1 = 0 ↔
      ¬(d.compileOk ShaderType.vertex v = true ∧
        d.compileOk ShaderType.fragment f = true ∧ d.linkOk v f = true)) ∧
    ((createProgram d v f n).1 = 0 ↔
      ¬(d.compileOk ShaderType.vertex v = true ∧
        d.compileOk ShaderType.fragment f = true ∧ d.linkOk v f = true)) ∧
    ((createShaderProgram d v f n).1 = 0 →
      (createShaderProgram d v f n).2.2.filter isDiagnostic ≠ []) := by
  by_cases hv : d.compileOk ShaderType.vertex v = true
  · by_cases hf : d.compileOk ShaderType.fragment f = true
    · by_cases hl : d.linkOk v f = true
      · rw [createShaderProgram_success d v f n hn hv hf hl,
          createProgram_success d v f n hn hv hf hl]
        refine ⟨by simp [hv, hf, hl], by simp [hv, hf, hl], by simp⟩
      · have hl0 : d.linkOk v f = false := by simpa using hl
        rw [createShaderProgram_linkfail d v f n hn hv hf hl0]
        have hx : (createProgram d v f n).1 = 0 := by
          by_cases hlog : (d.linkLog v f).length = 0
          · rw [createProgram_linkfail_nolog d v f n hn hv hf hl0 hlog]
          · rw [createProgram_linkfail_log d v f n hn hv hf hl0 hlog]
        refine ⟨by simp [hl0], by simp [hx, hl0], by simp [isDiagnostic]⟩
    · have hf0 : d.compileOk ShaderType.fragment f = false := by simpa using hf
      rw [createShaderProgram_compilefail d v f n
        (Or.inr (compileShader_result_zero d ShaderType.fragment f (n + 1) hf0))]
      rw [createProgram_compilefail d v f n
        (Or.inr (loadShader_result_zero d ShaderType.fragment f (n + 1) hf0))]
      rw [compileShader_ok d ShaderType.vertex v n hv,
        compileShader_fail d ShaderType.fragment f (n + 1) hf0]
      refine ⟨by simp [hf0], by simp [hf0], by simp [isDiagnostic]⟩
  · have hv0 : d.compileOk ShaderType.vertex v = false := by simpa using hv
    rw [createShaderProgram_compilefail d v f n
      (Or.inl (compileShader_result_zero d ShaderType.vertex v n hv0))]
    rw [createProgram_compilefail d v f n
      (Or.inl (loadShader_result_zero d ShaderType.vertex v n hv0))]
    rw [compileShader_fail d ShaderType.vertex v n hv0]
    refine ⟨by simp [hv0], by simp [hv0], by simp [isDiagnostic]⟩

/-- Witness for the amended C6 on the silently failing driver. -/
theorem C6_amended_witness :
    0 < 1 ∧
    (((createShaderProgram silentFailDriver "x" "y" 1).1 = 0 ↔
       ¬(silentFailDriver.compileOk ShaderType.vertex "x" = true ∧
         silentFailDriver.compileOk ShaderType.fragment "y" = true ∧
         silentFailDriver.linkOk "x" "y" = true)) ∧
     ((createProgram silentFailDriver "x" "y" 1).1 = 0 ↔
       ¬(silentFailDriver.compileOk ShaderType.vertex "x" = true ∧
         silentFailDriver.compileOk ShaderType.fragment "y" = true ∧
         silentFailDriver.linkOk "x" "y" = true)) ∧
     ((createShaderProgram silentFailDriver "x" "y" 1).1 = 0 →
       (createShaderProgram silentFailDriver "x" "y" 1).2.2.filter isDiagnostic ≠ [])) :=
  ⟨Nat.one_pos, C6_amended silentFailDriver "x" "y" 1 Nat.one_pos⟩

theorem coreCalls_append (a b : List Event) :
    coreCalls (a ++ b) = coreCalls a ++ coreCalls b := by
  simp [coreCalls, List.filter_append]

theorem compileShader_coreCalls (d : Driver) (t : ShaderType) (s : String) (n : Nat) :
    coreCalls (compileShader d t s n).2.2 =
      [Event.createShaderObject t n, Event.setSource n s, Event.compile n] := by
  by_cases h : d.compileOk t s = true
  · rw [compileShader_ok d t s n h]
    simp [coreCalls, isDestroyShader, isDiagnostic]
  · rw [compileShader_fail d t s n (by simpa using h)]
    simp [coreCalls, isDestroyShader, isDiagnostic]

theorem loadShader_coreCalls (d : Driver) (t : ShaderType) (s : String) (n : Nat) :
    coreCalls (loadShader d t s n).2.2 =
      [Event.createShaderObject t n, Event.setSource n s, Event.compile n] := by
  by_cases h : d.compileOk t s = true
  · rw [loadShader_ok d t s n h]
    simp [coreCalls, isDestroyShader, isDiagnostic]
  · by_cases hl : (d.compileLog t s).length = 0
    · rw [loadShader_fail_nolog d t s n (by simpa using h) hl]
      simp [coreCalls, isDestroyShader, isDiagnostic]
    · rw [loadShader_fail_log d t s n (by simpa using h) hl]
      simp [coreCalls, isDestroyShader, isDiagnostic]

theorem compileShader_filterDestroy (d : Driver) (t : ShaderType) (s : String) (n : Nat) :
    (compileShader d t s n).2.2.filter isDestroyShader =
      (if d.compileOk t s = true then [] else [Event.destroyShader n]) := by
  by_cases h : d.compileOk t s = true
  · rw [compileShader_ok d t s n h, if_pos h]
    simp [isDestroyShader]
  · rw [compileShader_fail d t s n (by simpa using h), if_neg h]
    simp [isDestroyShader]

theorem loadShader_filterDestroy (d : Driver) (t : ShaderType) (s : String) (n : Nat) :
    (loadShader d t s n).2.2.filter isDestroyShader =
      (if d.compileOk t s = true then [] else [Event.destroyShader n]) := by
  by_cases h : d.compileOk t s = true
  · rw [loadShader_ok d t s n h, if_pos h]
    simp [isDestroyShader]
  · rw [if_neg h]
    by_cases hl : (d.compileLog t s).length = 0
    · rw [loadShader_fail_nolog d t s n (by simpa using h) hl]
      simp [isDestroyShader]
    · rw [loadShader_fail_log d t s n (by simpa using h) hl]
      simp [isDestroyShader]

theorem countCompileErrorFor_append (u : ShaderType) (a b : List Event) :
    countCompileErrorFor u (a ++ b) =
      countCompileErrorFor u a + countCompileErrorFor u b := by
  simp [countCompileErrorFor, List.filter_append]

theorem compileShader_countErrFor (d : Driver) (t : ShaderType) (s : String) (n : Nat)
    (u : ShaderType) :
    countCompileErrorFor u (compileShader d t s n).2.2 =
      (if d.compileOk t s = true then 0 else if t = u then 1 else 0) := by
  by_cases h : d.compileOk t s = true
  · rw [compileShader_ok d t s n h, if_pos h]
    simp [countCompileErrorFor, isCompileErrorFor]
  · rw [compileShader_fail d t s n (by simpa using h), if_neg h]
    by_cases htu : t = u
    · simp [countCompileErrorFor, isCompileErrorFor, htu]
    · simp [countCompileErrorFor, isCompileErrorFor, htu]

theorem loadShader_countErrFor (d : Driver) (t : ShaderType) (s : String) (n : Nat)
    (u : ShaderType) :
    countCompileErrorFor u (loadShader d t s n).2.2 =
      (if d.compileOk t s = true then 0
       else if (d.compileLog t s).length = 0 then 0 else if t = u then 1 else 0) := by
  by_cases h : d.compileOk t s = true
  · rw [loadShader_ok d t s n h, if_pos h]
    simp [countCompileErrorFor, isCompileErrorFor]
  · rw [if_neg h]
    by_cases hl : (d.compileLog t s).length = 0
    · rw [loadShader_fail_nolog d t s n (by simpa using h) hl, if_pos hl]
      simp [countCompileErrorFor, isCompileErrorFor]
    · rw [loadShader_fail_log d t s n (by simpa using h) hl, if_neg hl]
      by_cases htu : t = u
      · simp [countCompileErrorFor, isCompileErrorFor, htu]
      · simp [countCompileErrorFor, isCompileErrorFor, htu]

theorem createShaderProgram_mem (d : Driver) (v f : String) (n : Nat) (e : Event)
    (h : e ∈ (compileShader d ShaderType.vertex v n).2.2 ∨
         e ∈ (compileShader d ShaderType.fragment f (n + 1)).2.2) :
    e ∈ (createShaderProgram d v f n).2.2 := by
  unfold createShaderProgram
  dsimp only
  rw [compileShader_next]
  split
  · simp only [List.mem_append]
    tauto
  · split <;>
    · simp only [List.mem_append]
      tauto

theorem createProgram_mem (d : Driver) (v f : String) (n : Nat) (e : Event)
    (h : e ∈ (loadShader d ShaderType.vertex v n).2.2 ∨
         e ∈ (loadShader d ShaderType.fragment f (n + 1)).2.2) :
    e ∈ (createProgram d v f n).2.2 := by
  unfold createProgram
  dsimp only
  rw [loadShader_next]
  split
  · simp only [List.mem_append]
    tauto
  · split <;>
    · simp only [List.mem_append]
      tauto

theorem compileShader_mem_compile (d : Driver) (t : ShaderType) (s : String) (n : Nat) :
    Event.compile n ∈ (compileShader d t s n).2.2 := by
  by_cases h : d.compileOk t s = true
  · rw [compileShader_ok d t s n h]
    simp
  · rw [compileShader_fail d t s n (by simpa using h)]
    simp

theorem compileShader_mem_create (d : Driver) (t : ShaderType) (s : String) (n : Nat) :
    Event.createShaderObject t n ∈ (compileShader d t s n).2.2 := by
  by_cases h : d.compileOk t s = true
  · rw [compileShader_ok d t s n h]
    simp
  · rw [compileShader_fail d t s n (by simpa using h)]
    simp

theorem loadShader_mem_compile (d : Driver) (t : ShaderType) (s : String) (n : Nat) :
    Event.compile n ∈ (loadShader d t s n).2.2 := by
  by_cases h : d.compileOk t s = true
  · rw [loadShader_ok d t s n h]
    simp
  · by_cases hl : (d.compileLog t s).length = 0
    · rw [loadShader_fail_nolog d t s n (by simpa using h) hl]
      simp
    · rw [loadShader_fail_log d t s n (by simpa using h) hl]
      simp

theorem loadShader_mem_create (d : Driver) (t : ShaderType) (s : String) (n : Nat) :
    Event.createShaderObject t n ∈ (loadShader d t s n).2.2 := by
  by_cases h : d.compileOk t s = true
  · rw [loadShader_ok d t s n h]
    simp
  · by_cases hl : (d.compileLog t s).length = 0
    · rw [loadShader_fail_nolog d t s n (by simpa using h) hl]
      simp
    · rw [loadShader_fail_log d t s n (by simpa using h) hl]
      simp

/-- C8 as stated is false: fed the same driver responses (both compiles
succeed, link fails with an empty log) and the same inputs, the desktop
copy issues two `destroyShader` calls and emits a link diagnostic, while
the VxWorks copy issues no `destroyShader` call and emits nothing. -/
theorem C8_counterexample :
    countDestroyShader (createShaderProgram linkFailDriver "vv" "ff" 1).2.2 = 2 ∧
    countDestroyShader (createProgram linkFailDriver "vv" "ff" 1).2.2 = 0 ∧
    (createShaderProgram linkFailDriver "vv" "ff" 1).2.2.filter isDiagnostic ≠ [] ∧
    (createProgram linkFailDriver "vv" "ff" 1).2.2.filter isDiagnostic = [] := by
  rw [createShaderProgram_linkfail linkFailDriver "vv" "ff" 1 Nat.one_pos rfl rfl rfl,
    createProgram_linkfail_nolog linkFailDriver "vv" "ff" 1 Nat.one_pos rfl rfl rfl rfl]
  exact ⟨by simp [countDestroyShader, isDestroyShader],
    by simp [countDestroyShader, isDestroyShader],
    by simp [isDiagnostic], by simp [isDiagnostic]⟩

/-- C8 amended: for every driver, source pair and starting handle the two
copies return the same result, allocate the same handles, and make the
same create / setSource / compile / attach / link calls; their destroy
calls also agree except on the link-failure path, where the VxWorks copy
omits the two `destroyShader` calls; their diagnostics differ in
emission condition, prefix text and truncation. -/
theorem C8_amended (d : Driver) (v f : String) (n : Nat) (hn : 0 < n) :
    (createShaderProgram d v f n).1 = (createProgram d v f n).1 ∧
    (createShaderProgram d v f n).2.1 = (createProgram d v f n).2.1 ∧
    coreCalls (createShaderProgram d v f n).2.2 = coreCalls (createProgram d v f n).2.2 ∧
    (¬(d.compileOk ShaderType.vertex v = true ∧
       d.compileOk ShaderType.fragment f = true ∧ d.linkOk v f = false) →
      (createShaderProgram d v f n).2.2.filter isDestroyShader =
        (createProgram d v f n).2.2.filter isDestroyShader) := by
  by_cases hv : d.compileOk ShaderType.vertex v = true
  · by_cases hf : d.compileOk ShaderType.fragment f = true
    · by_cases hl : d.linkOk v f = true
      · rw [createShaderProgram_success d v f n hn hv hf hl,
          createProgram_success d v f n hn hv hf hl]
        exact ⟨rfl, rfl, rfl, fun _ => rfl⟩
      · have hl0 : d.linkOk v f = false := by simpa using hl
        rw [createShaderProgram_linkfail d v f n hn hv hf hl0]
        by_cases hlog : (d.linkLog v f).length = 0
        · rw [createProgram_linkfail_nolog d v f n hn hv hf hl0 hlog]
          refine ⟨rfl, rfl, ?_, fun hcon => absurd ⟨hv, hf, hl0⟩ hcon⟩
          simp [coreCalls, isDestroyShader, isDiagnostic]
        · rw [createProgram_linkfail_log d v f n hn hv hf hl0 hlog]
          refine ⟨rfl, rfl, ?_, fun hcon => absurd ⟨hv, hf, hl0⟩ hcon⟩
          simp [coreCalls, isDestroyShader, isDiagnostic]
    · have hf0 : d.compileOk ShaderType.fragment f = false := by simpa using hf
      rw [createShaderProgram_compilefail d v f n
        (Or.inr (compileShader_result_zero d ShaderType.fragment f (n + 1) hf0))]
      rw [createProgram_compilefail d v f n
        (Or.inr (loadShader_result_zero d ShaderType.fragment f (n + 1) hf0))]
      refine ⟨rfl, rfl, ?_, fun _ => ?_⟩
      · rw [coreCalls_append, coreCalls_append,
          compileShader_coreCalls, compileShader_coreCalls,
          loadShader_coreCalls, loadShader_coreCalls]
      · rw [List.filter_append, List.filter_append,
          compileShader_filterDestroy, compileShader_filterDestroy,
          loadShader_filterDestroy, loadShader_filterDestroy]
  · have hv0 : d.compileOk ShaderType.vertex v = false := by simpa using hv
    rw [createShaderProgram_compilefail d v f n
      (Or.inl (compileShader_result_zero d ShaderType.vertex v n hv0))]
    rw [createProgram_compilefail d v f n
      (Or.inl (loadShader_result_zero d ShaderType.vertex v n hv0))]
    refine ⟨rfl, rfl, ?_, fun _ => ?_⟩
    · rw [coreCalls_append, coreCalls_append,
        compileShader_coreCalls, compileShader_coreCalls,
        loadShader_coreCalls, loadShader_coreCalls]
    · rw [List.filter_append, List.filter_append,
        compileShader_filterDestroy, compileShader_filterDestroy,
        loadShader_filterDestroy, loadShader_filterDestroy]

/-- Witness for the amended C8 on the all-success driver. -/
theorem C8_amended_witness :
    0 < 1 ∧
    ((createShaderProgram allOkDriver "a" "b" 1).1 = (createProgram allOkDriver "a" "b" 1).1 ∧
     (createShaderProgram allOkDriver "a" "b" 1).2.1 =
       (createProgram allOkDriver "a" "b" 1).2.1 ∧
     coreCalls (createShaderProgram allOkDriver "a" "b" 1).2.2 =
       coreCalls (createProgram allOkDriver "a" "b" 1).2.2 ∧
     (¬(allOkDriver.compileOk ShaderType.vertex "a" = true ∧
        allOkDriver.compileOk ShaderType.fragment "b" = true ∧
        allOkDriver.linkOk "a" "b" = false) →
       (createShaderProgram allOkDriver "a" "b" 1).2.2.filter isDestroyShader =
         (createProgram allOkDriver "a" "b" 1).2.2.filter isDestroyShader)) :=
  ⟨Nat.one_pos, C8_amended allOkDriver "a" "b" 1 Nat.one_pos⟩

/-- Driver that compiles exactly the two-character sources, fails every
link, and reports the 600-character log everywhere. -/
def mixedDriver : Driver where
  compileOk := fun _ s => s.length == 2
  compileLog := fun _ _ => longLog
  linkOk := fun _ _ => false
  linkLog := fun _ _ => longLog

theorem longLog_length : longLog.length = 600 := by
  rw [show longLog.length = (List.replicate 600 'x').length from rfl,
    List.length_replicate]

/-- C9 as stated is false for the VxWorks copy: on a compile failure with
a 600-character driver log, `loadShader` emits the entire log, and on a
link failure with the same 600-character log, `createProgram` likewise
emits the entire log — the diagnostic text is not bounded by the 512-byte
buffer; the bound exists only in the desktop copy. -/
theorem C9_counterexample :
    512 < (longLogDriver.compileLog ShaderType.vertex "v9").length ∧
    Event.compileError ShaderType.vertex
        ("Error compiling shader:\n" ++ longLogDriver.compileLog ShaderType.vertex "v9") ∈
      (loadShader longLogDriver ShaderType.vertex "v9" 1).2.2 ∧
    512 < (mixedDriver.linkLog "ok" "ok").length ∧
    Event.linkError ("Error linking program:\n" ++ mixedDriver.linkLog "ok" "ok") ∈
      (createProgram mixedDriver "ok" "ok" 1).2.2 := by
  have hlen : (longLogDriver.compileLog ShaderType.vertex "v9").length = 600 :=
    longLog_length
  have hlen2 : (mixedDriver.linkLog "ok" "ok").length = 600 := longLog_length
  refine ⟨by rw [hlen]; omega, ?_, by rw [hlen2]; omega, ?_⟩
  · rw [loadShader_fail_log longLogDriver ShaderType.vertex "v9" 1 rfl (by rw [hlen]; omega)]
    simp
  · rw [createProgram_linkfail_log mixedDriver "ok" "ok" 1 Nat.one_pos rfl rfl rfl
      (by rw [hlen2]; omega)]
    simp

/-- C9 amended: the 512-byte bound holds only in the desktop copy: its
compile and link diagnostics carry the driver log truncated to at most
511 characters, with no truncation indication.  The VxWorks copy queries
the log length at both its compile-failure and link-failure sites and
emits the full, untruncated log whenever that log is nonempty. -/
theorem C9_amended (d : Driver) (t : ShaderType) (s v f : String) (n : Nat)
    (hn : 0 < n)
    (hc : d.compileOk t s = false)
    (hv : d.compileOk ShaderType.vertex v = true)
    (hf : d.compileOk ShaderType.fragment f = true)
    (hl : d.linkOk v f = false)
    (hlog : (d.compileLog t s).length ≠ 0)
    (hlinklog : (d.linkLog v f).length ≠ 0) :
    Event.compileError t
        ("ERROR::SHADER::COMPILATION_FAILED\n" ++ (d.compileLog t s).take 511) ∈
      (compileShader d t s n).2.2 ∧
    ((d.compileLog t s).take 511).length ≤ 511 ∧
    Event.linkError
        ("ERROR::PROGRAM::LINKING_FAILED\n" ++ (d.linkLog v f).take 511) ∈
      (createShaderProgram d v f n).2.2 ∧
    ((d.linkLog v f).take 511).length ≤ 511 ∧
    Event.compileError t ("Error compiling shader:\n" ++ d.compileLog t s) ∈
      (loadShader d t s n).2.2 ∧
    Event.linkError ("Error linking program:\n" ++ d.linkLog v f) ∈
      (createProgram d v f n).2.2 := by
  refine ⟨?_, string_take_length_le _ _, ?_, string_take_length_le _ _, ?_, ?_⟩
  · rw [compileShader_fail d t s n hc]
    simp
  · rw [createShaderProgram_linkfail d v f n hn hv hf hl]
    simp
  · rw [loadShader_fail_log d t s n hc hlog]
    simp
  · rw [createProgram_linkfail_log d v f n hn hv hf hl hlinklog]
    simp

/-- Witness for the amended C9 on the mixed driver with the long log. -/
theorem C9_amended_witness :
    0 < 1 ∧
    mixedDriver.compileOk ShaderType.fragment "bad" = false ∧
    mixedDriver.compileOk ShaderType.vertex "ok" = true ∧
    mixedDriver.compileOk ShaderType.fragment "ok" = true ∧
    mixedDriver.linkOk "ok" "ok" = false ∧
    (mixedDriver.compileLog ShaderType.fragment "bad").length ≠ 0 ∧
    (mixedDriver.linkLog "ok" "ok").length ≠ 0 ∧
    (Event.compileError ShaderType.fragment
        ("ERROR::SHADER::COMPILATION_FAILED\n" ++
          (mixedDriver.compileLog ShaderType.fragment "bad").take 511) ∈
      (compileShader mixedDriver ShaderType.fragment "bad" 1).2.2 ∧
     ((mixedDriver.compileLog ShaderType.fragment "bad").take 511).length ≤ 511 ∧
     Event.linkError
         ("ERROR::PROGRAM::LINKING_FAILED\n" ++ (mixedDriver.linkLog "ok" "ok").take 511) ∈
       (createShaderProgram mixedDriver "ok" "ok" 1).2.2 ∧
     ((mixedDriver.linkLog "ok" "ok").take 511).length ≤ 511 ∧
     Event.compileError ShaderType.fragment
         ("Error compiling shader:\n" ++ mixedDriver.compileLog ShaderType.fragment "bad") ∈
       (loadShader mixedDriver ShaderType.fragment "bad" 1).2.2 ∧
     Event.linkError ("Error linking program:\n" ++ mixedDriver.linkLog "ok" "ok") ∈
       (createProgram mixedDriver "ok" "ok" 1).2.2) :=
  ⟨Nat.one_pos, rfl, rfl, rfl, rfl,
    by rw [show (mixedDriver.compileLog ShaderType.fragment "bad").length = 600 from longLog_length]; omega,
    by rw [show (mixedDriver.linkLog "ok" "ok").length = 600 from longLog_length]; omega,
    C9_amended mixedDriver ShaderType.fragment "bad" "ok" "ok" 1 Nat.one_pos rfl rfl rfl rfl
      (by rw [show (mixedDriver.compileLog ShaderType.fragment "bad").length = 600 from longLog_length]; omega)
      (by rw [show (mixedDriver.linkLog "ok" "ok").length = 600 from longLog_length]; omega)⟩

/-- C10 as stated is false in its diagnostic part for the VxWorks copy:
with both sources rejected and empty driver logs, `createProgram` attempts
both compiles and returns the sentinel, but emits zero CompileError
diagnostics instead of two. -/
theorem C10_counterexample :
    silentFailDriver.compileOk ShaderType.vertex "vb" = false ∧
    silentFailDriver.compileOk ShaderType.fragment "fb" = false ∧
    (createProgram silentFailDriver "vb" "fb" 1).1 = 0 ∧
    countCompileErrorFor ShaderType.vertex
      (createProgram silentFailDriver "vb" "fb" 1).2.2 = 0 ∧
    countCompileErrorFor ShaderType.fragment
      (createProgram silentFailDriver "vb" "fb" 1).2.2 = 0 := by
  rw [createProgram_compilefail silentFailDriver "vb" "fb" 1
    (Or.inl (loadShader_result_zero silentFailDriver ShaderType.vertex "vb" 1 rfl))]
  refine ⟨rfl, rfl, rfl, ?_, ?_⟩ <;>
  · rw [countCompileErrorFor_append, loadShader_countErrFor, loadShader_countErrFor]
    simp [silentFailDriver]

/-- C10 amended: in every build call, in both copies, both stage compiles
are attempted — the trace always contains the `createShaderObject` and
`compile` calls of both stages, whatever the outcomes.  When both sources
are invalid, both copies return the sentinel; the desktop copy emits
exactly one CompileError per stage, while the VxWorks copy emits one per
stage whose driver log is nonempty. -/
theorem C10_amended (d : Driver) (v f : String) (n : Nat) :
    Event.createShaderObject ShaderType.vertex n ∈ (createShaderProgram d v f n).2.2 ∧
    Event.compile n ∈ (createShaderProgram d v f n).2.2 ∧
    Event.createShaderObject ShaderType.fragment (n + 1) ∈
      (createShaderProgram d v f n).2.2 ∧
    Event.compile (n + 1) ∈ (createShaderProgram d v f n).2.2 ∧
    Event.createShaderObject ShaderType.vertex n ∈ (createProgram d v f n).2.2 ∧
    Event.compile n ∈ (createProgram d v f n).2.2 ∧
    Event.createShaderObject ShaderType.fragment (n + 1) ∈ (createProgram d v f n).2.2 ∧
    Event.compile (n + 1) ∈ (createProgram d v f n).2.2 ∧
    (d.compileOk ShaderType.vertex v = false →
     d.compileOk ShaderType.fragment f = false →
      (createShaderProgram d v f n).1 = 0 ∧
      countCompileErrorFor ShaderType.vertex (createShaderProgram d v f n).2.2 = 1 ∧
      countCompileErrorFor ShaderType.fragment (createShaderProgram d v f n).2.2 = 1 ∧
      (createProgram d v f n).1 = 0 ∧
      countCompileErrorFor ShaderType.vertex (createProgram d v f n).2.2 =
        (if (d.compileLog ShaderType.vertex v).length = 0 then 0 else 1) ∧
      countCompileErrorFor ShaderType.fragment (createProgram d v f n).2.2 =
        (if (d.compileLog ShaderType.fragment f).length = 0 then 0 else 1)) := by
  refine ⟨createShaderProgram_mem d v f n _ (Or.inl (compileShader_mem_create d _ v n)),
    createShaderProgram_mem d v f n _ (Or.inl (compileShader_mem_compile d _ v n)),
    createShaderProgram_mem d v f n _ (Or.inr (compileShader_mem_create d _ f (n + 1))),
    createShaderProgram_mem d v f n _ (Or.inr (compileShader_mem_compile d _ f (n + 1))),
    createProgram_mem d v f n _ (Or.inl (loadShader_mem_create d _ v n)),
    createProgram_mem d v f n _ (Or.inl (loadShader_mem_compile d _ v n)),
    createProgram_mem d v f n _ (Or.inr (loadShader_mem_create d _ f (n + 1))),
    createProgram_mem d v f n _ (Or.inr (loadShader_mem_compile d _ f (n + 1))),
    ?_⟩
  intro hv0 hf0
  rw [createShaderProgram_compilefail d v f n
    (Or.inl (compileShader_result_zero d ShaderType.vertex v n hv0))]
  rw [createProgram_compilefail d v f n
    (Or.inl (loadShader_result_zero d ShaderType.vertex v n hv0))]
  refine ⟨rfl, ?_, ?_, rfl, ?_, ?_⟩ <;>
  · rw [countCompileErrorFor_append]
    first
      | rw [compileShader_countErrFor, compileShader_countErrFor]
      | rw [loadShader_countErrFor, loadShader_countErrFor]
    simp [hv0, hf0]

/-- Witness for the amended C10 on the silently failing driver, with the
both-sources-invalid implication discharged. -/
theorem C10_amended_witness :
    silentFailDriver.compileOk ShaderType.vertex "wv" = false ∧
    silentFailDriver.compileOk ShaderType.fragment "wf" = false ∧
    Event.createShaderObject ShaderType.vertex 1 ∈
      (createShaderProgram silentFailDriver "wv" "wf" 1).2.2 ∧
    Event.compile 1 ∈ (createShaderProgram silentFailDriver "wv" "wf" 1).2.2 ∧
    Event.createShaderObject ShaderType.fragment (1 + 1) ∈
      (createShaderProgram silentFailDriver "wv" "wf" 1).2.2 ∧
    Event.compile (1 + 1) ∈ (createShaderProgram silentFailDriver "wv" "wf" 1).2.2 ∧
    Event.createShaderObject ShaderType.vertex 1 ∈
      (createProgram silentFailDriver "wv" "wf" 1).2.2 ∧
    Event.compile 1 ∈ (createProgram silentFailDriver "wv" "wf" 1).2.2 ∧
    Event.createShaderObject ShaderType.fragment (1 + 1) ∈
      (createProgram silentFailDriver "wv" "wf" 1).2.2 ∧
    Event.compile (1 + 1) ∈ (createProgram silentFailDriver "wv" "wf" 1).2.2 ∧
    (createShaderProgram silentFailDriver "wv" "wf" 1).1 = 0 ∧
    countCompileErrorFor ShaderType.vertex
      (createShaderProgram silentFailDriver "wv" "wf" 1).2.2 = 1 ∧
    countCompileErrorFor ShaderType.fragment
      (createShaderProgram silentFailDriver "wv" "wf" 1).2.2 = 1 ∧
    (createProgram silentFailDriver "wv" "wf" 1).1 = 0 ∧
    countCompileErrorFor ShaderType.vertex
      (createProgram silentFailDriver "wv" "wf" 1).2.2 =
      (if (silentFailDriver.compileLog ShaderType.vertex "wv").length = 0
       then 0 else 1) ∧
    countCompileErrorFor ShaderType.fragment
      (createProgram silentFailDriver "wv" "wf" 1).2.2 =
      (if (silentFailDriver.compileLog ShaderType.fragment "wf").length = 0
       then 0 else 1) := by
  have h := C10_amended silentFailDriver "wv" "wf" 1
  have hc := h.2.2.2.2.2.2.2.2 rfl rfl
  exact ⟨rfl, rfl, h.1, h.2.1, h.2.2.1, h.2.2.2.1, h.2.2.2.2.1, h.2.2.2.2.2.1,
    h.2.2.2.2.2.2.1, h.2.2.2.2.2.2.2.1, hc.1, hc.2.1, hc.2.2.1, hc.2.2.2.1,
    hc.2.2.2.2.1, hc.2.2.2.2.2⟩
